import Mathlib

/-!
Verification of the money-lens fi-mcp-client service against its
natural-language specification.  The Python source is shallowly embedded:
JSON-like Python values become the inductive type `PyVal`, stateful code
becomes explicit state passing, exceptions become `Except`, and remote
services (the Gemini LLM, the Fi MCP gateway, the search providers, the
NAV provider, yfinance) become oracle function parameters that are
universally quantified in the theorems.
-/

set_option autoImplicit false

namespace MoneyLens

/-- JSON-like Python values: `None`, booleans, strings, numbers (modelled as
rationals), lists and string-keyed dicts (modelled as association lists,
first occurrence wins, as Python dict keys are unique). -/
inductive PyVal where
  | none
  | bool (b : Bool)
  | str (s : String)
  | num (q : ℚ)
  | list (xs : List PyVal)
  | dict (kvs : List (String × PyVal))

/-- `d.get(k)` on a Python dict: the value at the first matching key. -/
def dictGet (kvs : List (String × PyVal)) (k : String) : Option PyVal :=
  match kvs with
  | [] => Option.none
  | (k₀, v) :: rest => if k₀ = k then some v else dictGet rest k

/-- `d[k] = v` on a Python dict: overwrite the entry if present, else append. -/
def dictSet (kvs : List (String × PyVal)) (k : String) (v : PyVal) :
    List (String × PyVal) :=
  match kvs with
  | [] => [(k, v)]
  | (k₀, v₀) :: rest =>
      if k₀ = k then (k₀, v) :: rest else (k₀, v₀) :: dictSet rest k v

/-- `k in d` on a Python dict. -/
def dictHasKey (kvs : List (String × PyVal)) (k : String) : Bool :=
  (dictGet kvs k).isSome

/-- `"error" in result` for a `PyVal` that may not be a dict (Python `in`
on a dict checks keys; the call sites only apply it to dicts). -/
def pyHasKey (v : PyVal) (k : String) : Bool :=
  match v with
  | .dict kvs => dictHasKey kvs k
  | _ => false

/-- Whether a `PyVal` is a Python dict. -/
def PyVal.isDict : PyVal → Bool
  | .dict _ => true
  | _ => false

/-- Python comparison `x == "login_required"` applied to an optional
looked-up value. -/
def isLoginStr : Option PyVal → Bool
  | some (.str s) => s = "login_required"
  | _ => false

/-- `is_login_required` from `api_server.py` / `api_server_new.py`
(both copies are token-identical).  `loads` is the `json.loads` oracle:
`some v` for a successful parse, `none` for a `JSONDecodeError` (which the
source catches).  `json.loads` applied to a non-string raises `TypeError`,
which the source does **not** catch — hence the `Except` result. -/
def is_login_required (loads : String → Option PyVal) (result : PyVal) :
    Except String Bool :=
  match result with
  | .dict kvs =>
      if isLoginStr (dictGet kvs "status") then .ok true
      else
        match dictGet kvs "content" with
        | some (.list (first :: _)) =>
            match first with
            | .dict fkvs =>
                match dictGet fkvs "text" with
                | some (.str s) =>
                    match loads s with
                    | some (.dict tkvs) =>
                        if isLoginStr (dictGet tkvs "status") then .ok true
                        else .ok false
                    | _ => .ok false
                | some _ => .error "TypeError: the JSON object must be str"
                | Option.none => .ok false
            | _ => .ok false
        | _ => .ok false
  | _ => .ok false

/-- The top-level login marker shape: `\x7b"status": "login_required"\x7d`. -/
def TopLevelLoginMarker (kvs : List (String × PyVal)) : Prop :=
  dictGet kvs "status" = some (.str "login_required")

/-- The nested login marker shape: `content[0]` is a dict whose `text`
field is a string that `json.loads` parses to a dict with
`status = "login_required"`. -/
def NestedLoginMarker (loads : String → Option PyVal)
    (kvs : List (String × PyVal)) : Prop :=
  ∃ fkvs rest s tkvs,
    dictGet kvs "content" = some (.list (PyVal.dict fkvs :: rest)) ∧
    dictGet fkvs "text" = some (.str s) ∧
    loads s = some (.dict tkvs) ∧
    dictGet tkvs "status" = some (.str "login_required")

/-- The only uncaught-exception path of `is_login_required`: the payload
reaches `json.loads(first_content["text"])` with a non-string `text`. -/
def TextFieldNotString (kvs : List (String × PyVal)) : Prop :=
  ¬ TopLevelLoginMarker kvs ∧
  ∃ fkvs rest v,
    dictGet kvs "content" = some (.list (PyVal.dict fkvs :: rest)) ∧
    dictGet fkvs "text" = some v ∧
    (∀ s, v ≠ .str s)

theorem isLoginStr_eq_true_iff (o : Option PyVal) :
    isLoginStr o = true ↔ o = some (.str "login_required") := by
  match o with
  | Option.none => simp [isLoginStr]
  | some .none => simp [isLoginStr]
  | some (.bool b) => simp [isLoginStr]
  | some (.str s) => simp [isLoginStr]
  | some (.num q) => simp [isLoginStr]
  | some (.list xs) => simp [isLoginStr]
  | some (.dict kvs) => simp [isLoginStr]

/-- C5 counterexample: the claim says `is_login_required` returns `False`
without raising for every dict payload carrying neither login marker, but
the payload whose `content[0].text` is the number `5` carries neither
marker and raises an uncaught `TypeError` (the source catches only
`JSONDecodeError` and `KeyError` around `json.loads`, and `json.loads` of
a non-string raises `TypeError`). -/
theorem C5_counterexample :
    is_login_required (fun _ => Option.none)
        (.dict [("content", .list [.dict [("text", .num 5)]])]) =
      .error "TypeError: the JSON object must be str" ∧
    TextFieldNotString [("content", PyVal.list [.dict [("text", .num 5)]])] := by
  constructor
  · rfl
  · refine ⟨by simp [TopLevelLoginMarker, dictGet], [("text", PyVal.num 5)], [], .num 5, rfl, rfl, ?_⟩
    intro s h
    cases h

/-- C5 (amended): `is_login_required` classifies both login-marker shapes
identically as login-required: a top-level status marker and a nested
`content[0].text` JSON string encoding the same status both yield
`.ok true`; it yields `.ok false` for every non-dict input and for every
dict payload carrying neither marker whose `content[0].text` field, when
reached, is a string — the sole exception being the non-string `text`
payloads of the counterexample, on which it raises `TypeError`. -/
theorem C5_theorem (loads : String → Option PyVal) :
    (∀ v : PyVal, v.isDict = false → is_login_required loads v = .ok false) ∧
    (∀ kvs, TopLevelLoginMarker kvs →
        is_login_required loads (.dict kvs) = .ok true) ∧
    (∀ kvs, NestedLoginMarker loads kvs →
        is_login_required loads (.dict kvs) = .ok true) ∧
    (∀ kvs, ¬ TextFieldNotString kvs → ¬ TopLevelLoginMarker kvs →
        ¬ NestedLoginMarker loads kvs →
        is_login_required loads (.dict kvs) = .ok false) := by
  refine ⟨?_, ?_, ?_, ?_⟩
  · intro v hv
    cases v <;> simp_all [PyVal.isDict, is_login_required]
  · intro kvs htop
    have hb : isLoginStr (dictGet kvs "status") = true :=
      (isLoginStr_eq_true_iff _).mpr htop
    simp [is_login_required, hb]
  · intro kvs hnest
    obtain ⟨fkvs, rest, s, tkvs, hc, ht, hl, hs⟩ := hnest
    have hst : isLoginStr (dictGet tkvs "status") = true :=
      (isLoginStr_eq_true_iff _).mpr hs
    by_cases htop : isLoginStr (dictGet kvs "status") = true
    · simp [is_login_required, htop]
    · rw [Bool.not_eq_true] at htop
      simp [is_login_required, htop, hc, ht, hl, hst]
  · intro kvs hsafe htop hnest
    have hb : isLoginStr (dictGet kvs "status") = false := by
      rw [Bool.eq_false_iff]
      intro h
      exact htop ((isLoginStr_eq_true_iff _).mp h)
    rcases hc : dictGet kvs "content" with _ | v
    · simp [is_login_required, hb, hc]
    cases v with
    | list xs =>
        cases xs with
        | nil => simp [is_login_required, hb, hc]
        | cons first rest =>
            cases first with
            | dict fkvs =>
                rcases ht : dictGet fkvs "text" with _ | w
                · simp [is_login_required, hb, hc, ht]
                cases w with
                | str s =>
                    rcases hl : loads s with _ | p
                    · simp [is_login_required, hb, hc, ht, hl]
                    cases p with
                    | dict tkvs =>
                        have hst : isLoginStr (dictGet tkvs "status") = false := by
                          rw [Bool.eq_false_iff]
                          intro h
                          exact hnest ⟨fkvs, rest, s, tkvs, hc, ht, hl,
                            (isLoginStr_eq_true_iff _).mp h⟩
                        simp [is_login_required, hb, hc, ht, hl, hst]
                    | none => simp [is_login_required, hb, hc, ht, hl]
                    | bool b => simp [is_login_required, hb, hc, ht, hl]
                    | str s₂ => simp [is_login_required, hb, hc, ht, hl]
                    | num q => simp [is_login_required, hb, hc, ht, hl]
                    | list ys => simp [is_login_required, hb, hc, ht, hl]
                | none =>
                    exact absurd ⟨htop, fkvs, rest, .none, hc, ht, fun s h => by cases h⟩ hsafe
                | bool b =>
                    exact absurd ⟨htop, fkvs, rest, .bool b, hc, ht, fun s h => by cases h⟩ hsafe
                | num q =>
                    exact absurd ⟨htop, fkvs, rest, .num q, hc, ht, fun s h => by cases h⟩ hsafe
                | list ys =>
                    exact absurd ⟨htop, fkvs, rest, .list ys, hc, ht, fun s h => by cases h⟩ hsafe
                | dict kvs₂ =>
                    exact absurd ⟨htop, fkvs, rest, .dict kvs₂, hc, ht, fun s h => by cases h⟩ hsafe
            | none => simp [is_login_required, hb, hc]
            | bool b => simp [is_login_required, hb, hc]
            | str s => simp [is_login_required, hb, hc]
            | num q => simp [is_login_required, hb, hc]
            | list ys => simp [is_login_required, hb, hc]
    | none => simp [is_login_required, hb, hc]
    | bool b => simp [is_login_required, hb, hc]
    | str s => simp [is_login_required, hb, hc]
    | num q => simp [is_login_required, hb, hc]
    | dict kvs₂ => simp [is_login_required, hb, hc]

/-- C5 witness: the amended theorem applied at the concrete top-level
marker payload. -/
theorem C5_theorem_witness :
    is_login_required (fun _ => Option.none)
      (.dict [("status", .str "login_required")]) = .ok true :=
  (C5_theorem (fun _ => Option.none)).2.1 [("status", .str "login_required")] rfl

/-- A tool call requested by the LLM: name and keyword arguments, as the
dicts built from `part.function_call` in the source. -/
structure ToolCall where
  name : String
  parameters : List (String × PyVal)

/-- The `ToolExecution` dataclass of `api_server_new.py`, restricted to the
fields the claims touch (wall-clock timing and category metadata are not
representable in the embedding). -/
structure ToolExecution where
  tool_name : String
  parameters : List (String × PyVal)
  result : Option PyVal
  error : Option String

/-- `is_successful` property of `ToolExecution`:
`self.error is None and self.result is not None`. -/
def ToolExecution.is_successful (e : ToolExecution) : Bool :=
  e.error.isNone && e.result.isSome

/-- `execute_single_tool_sync` from `execute_tools_parallel`
(`api_server_new.py`): dispatches the named tool and records the result,
catching any exception into the `error` field.  The dispatch to
`execute_web_search` / `execute_stock_symbol_search` /
`execute_stock_analysis` / `execute_mutual_fund_analysis` /
`execute_mcp_tool` (and the `ValueError` for an unknown tool) is the
oracle `handler`, whose `.error` outcome is a raised exception message. -/
def execute_single_tool_sync (handler : ToolCall → Except String PyVal)
    (tc : ToolCall) : ToolExecution :=
  match handler tc with
  | .ok r =>
      { tool_name := tc.name, parameters := tc.parameters,
        result := some r, error := Option.none }
  | .error e =>
      { tool_name := tc.name, parameters := tc.parameters,
        result := Option.none, error := some e }

/-- `execute_tools_parallel` (`api_server_new.py`): one executor task per
requested call, reassembled by `asyncio.gather`, which returns results in
task-submission order regardless of completion order. -/
def execute_tools_parallel (handler : ToolCall → Except String PyVal)
    (tool_calls : List ToolCall) : List ToolExecution :=
  tool_calls.map (execute_single_tool_sync handler)

/-- C2: in a dispatched batch, a raising handler does not disturb its
siblings: the batch returns exactly one `ToolExecution` per requested
call, in the original request order (the execution at index `i` carries
the name of call `i`), with `error != None` exactly on the calls whose
handler raised and `is_successful` exactly on the others. -/
theorem C2_batch_isolation (handler : ToolCall → Except String PyVal)
    (tool_calls : List ToolCall) (i : Nat) (hi : i < tool_calls.length) :
    (execute_tools_parallel handler tool_calls).length = tool_calls.length ∧
    ((execute_tools_parallel handler tool_calls).get
        ⟨i, by simpa [execute_tools_parallel] using hi⟩).tool_name =
      (tool_calls.get ⟨i, hi⟩).name ∧
    (((execute_tools_parallel handler tool_calls).get
        ⟨i, by simpa [execute_tools_parallel] using hi⟩).is_successful = true ↔
      ∃ r, handler (tool_calls.get ⟨i, hi⟩) = .ok r) ∧
    (((execute_tools_parallel handler tool_calls).get
        ⟨i, by simpa [execute_tools_parallel] using hi⟩).error ≠ Option.none ↔
      ∃ msg, handler (tool_calls.get ⟨i, hi⟩) = .error msg) := by
  have hget : (execute_tools_parallel handler tool_calls).get
      ⟨i, by simpa [execute_tools_parallel] using hi⟩ =
      execute_single_tool_sync handler (tool_calls.get ⟨i, hi⟩) := by
    simp [execute_tools_parallel, List.get_eq_getElem]
  have hname : ∀ tc, (execute_single_tool_sync handler tc).tool_name = tc.name := by
    intro tc
    rcases h : handler tc with r | e <;> simp [execute_single_tool_sync, h]
  have hsucc : ∀ tc, ((execute_single_tool_sync handler tc).is_successful = true ↔
      ∃ r, handler tc = .ok r) := by
    intro tc
    rcases h : handler tc with r | e <;>
      simp [execute_single_tool_sync, ToolExecution.is_successful, h]
  have herr : ∀ tc, ((execute_single_tool_sync handler tc).error ≠ Option.none ↔
      ∃ msg, handler tc = .error msg) := by
    intro tc
    rcases h : handler tc with r | e <;> simp [execute_single_tool_sync, h]
  exact ⟨by simp [execute_tools_parallel], by rw [hget]; exact hname _,
    by rw [hget]; exact hsucc _, by rw [hget]; exact herr _⟩

/-- Concrete batch for the C2 witness: three calls, the middle handler
raises. -/
def exampleHandler : ToolCall → Except String PyVal := fun tc =>
  if tc.name = "web_search" then .error "boom" else .ok (.str "ok")

/-- Concrete request batch for the C2 witness. -/
def exampleBatch : List ToolCall :=
  [⟨"fetch_net_worth", []⟩, ⟨"web_search", []⟩, ⟨"fetch_epf_details", []⟩]

/-- C2 witness: the theorem applied at the failing middle call of a
concrete three-call batch. -/
theorem C2_batch_isolation_witness :
    ((execute_tools_parallel exampleHandler exampleBatch).get
        ⟨1, by decide⟩).error ≠ Option.none :=
  (C2_batch_isolation exampleHandler exampleBatch 1 (by decide)).2.2.2.mpr
    ⟨"boom", rfl⟩

/-- One LLM chat response in the orchestrator workflow: its function-call
parts and its text. -/
structure LLMResponse where
  toolCalls : List ToolCall
  text : String

/-- `max_rounds = 3` in `execute_workflow_orchestrator_workers`. -/
def max_rounds : Nat := 3

/-- The `while current_round < max_rounds` tool-dispatch/LLM loop of
`execute_workflow_orchestrator_workers`.  `responses k` is the LLM
message visible after `k` dispatched batches (`responses 0` is the
initial planning response), quantifying over every possible sequence of
LLM responses.  The fuel argument is the number of remaining loop
iterations; the second component of the result counts the rounds that
dispatched tools (the loop breaks as soon as a response carries no
function calls). -/
def orchestratorRounds (handler : ToolCall → Except String PyVal)
    (responses : Nat → LLMResponse) :
    Nat → Nat → List ToolExecution × Nat
  | 0, dispatched => ([], dispatched)
  | fuel + 1, dispatched =>
      let resp := responses dispatched
      if resp.toolCalls.isEmpty then ([], dispatched)
      else
        let execs := execute_tools_parallel handler resp.toolCalls
        let tail := orchestratorRounds handler responses fuel (dispatched + 1)
        (execs ++ tail.1, tail.2)

/-- The `AgentWorkflow` fields C1 is about. -/
structure AgentWorkflow where
  tool_executions : List ToolExecution
  final_result : Option String

/-- `execute_workflow_orchestrator_workers` (`api_server_new.py`): the
planning turn and worker rounds, then the one unconditional synthesis
turn whose text is stored in `workflow.final_result` (`synthesis r` is
the text of the synthesis response after `r` completed rounds, which the
prompt embeds as `current_round`). -/
def execute_workflow_orchestrator_workers
    (handler : ToolCall → Except String PyVal)
    (responses : Nat → LLMResponse) (synthesis : Nat → String) :
    AgentWorkflow :=
  let outcome := orchestratorRounds handler responses max_rounds 0
  { tool_executions := outcome.1, final_result := some (synthesis outcome.2) }

theorem orchestratorRounds_dispatched_le
    (handler : ToolCall → Except String PyVal)
    (responses : Nat → LLMResponse) :
    ∀ fuel d, (orchestratorRounds handler responses fuel d).2 ≤ d + fuel := by
  intro fuel
  induction fuel with
  | zero => intro d; simp [orchestratorRounds]
  | succ n ih =>
      intro d
      by_cases h : (responses d).toolCalls.isEmpty
      · simp [orchestratorRounds, h]
      · simp only [orchestratorRounds, h, if_false, Bool.false_eq_true]
        have := ih (d + 1)
        omega

theorem orchestratorRounds_dispatched_all
    (handler : ToolCall → Except String PyVal)
    (responses : Nat → LLMResponse)
    (hall : ∀ k, (responses k).toolCalls ≠ []) :
    ∀ fuel d, (orchestratorRounds handler responses fuel d).2 = d + fuel := by
  intro fuel
  induction fuel with
  | zero => intro d; simp [orchestratorRounds]
  | succ n ih =>
      intro d
      have h : (responses d).toolCalls.isEmpty = false := by
        simpa [List.isEmpty_iff] using hall d
      simp only [orchestratorRounds, h, if_false, Bool.false_eq_true]
      rw [ih (d + 1)]
      omega

/-- C1: for every sequence of LLM responses, every handler behavior and
every synthesis text, the orchestrator-workers workflow dispatches at
most `max_rounds = 3` tool rounds, always performs the final synthesis
turn (the final result is exactly the synthesis response text), and
terminates with a non-null `final_result`; when the LLM requests tools on
every turn, exactly 3 rounds run. -/
theorem C1_round_bound (handler : ToolCall → Except String PyVal)
    (responses : Nat → LLMResponse) (synthesis : Nat → String) :
    (orchestratorRounds handler responses max_rounds 0).2 ≤ max_rounds ∧
    (execute_workflow_orchestrator_workers handler responses synthesis).final_result =
      some (synthesis (orchestratorRounds handler responses max_rounds 0).2) ∧
    (execute_workflow_orchestrator_workers handler responses synthesis).final_result ≠
      Option.none ∧
    ((∀ k, (responses k).toolCalls ≠ []) →
      (orchestratorRounds handler responses max_rounds 0).2 = max_rounds) := by
  refine ⟨?_, rfl, by simp [execute_workflow_orchestrator_workers], ?_⟩
  · simpa using orchestratorRounds_dispatched_le handler responses max_rounds 0
  · intro hall
    simpa using orchestratorRounds_dispatched_all handler responses hall max_rounds 0

/-- A response stream for the C1 witness in which the LLM requests another
tool call on every turn. -/
def alwaysToolResponses : Nat → LLMResponse :=
  fun _ => ⟨[⟨"web_search", []⟩], "keep going"⟩

/-- C1 witness: the theorem applied to the stream that always requests
tools; the loop runs exactly the 3 configured rounds. -/
theorem C1_round_bound_witness :
    (orchestratorRounds (fun _ => .ok (.str "r")) alwaysToolResponses
      max_rounds 0).2 = max_rounds :=
  (C1_round_bound (fun _ => .ok (.str "r")) alwaysToolResponses
      (fun _ => "done")).2.2.2
    (fun k => by simp [alwaysToolResponses])

/-- The four fixed financial tools of `FI_TOOL_DEFINITIONS` in
`api_server.py`. -/
def FI_TOOL_NAMES : List String :=
  ["fetch_net_worth", "fetch_credit_report", "fetch_epf_details",
   "fetch_mf_transactions"]

/-- The six financial tools of `FI_TOOL_DEFINITIONS` in
`api_server_new.py`. -/
def FI_TOOL_NAMES_NEW : List String :=
  ["fetch_net_worth", "fetch_credit_report", "fetch_epf_details",
   "fetch_mf_transactions", "fetch_bank_transactions",
   "fetch_stock_transactions"]

theorem dictGet_dictSet_self (kvs : List (String × PyVal)) (k : String)
    (v : PyVal) : dictGet (dictSet kvs k v) k = some v := by
  induction kvs with
  | nil => simp [dictSet, dictGet]
  | cons hd tl ih =>
      obtain ⟨k₀, v₀⟩ := hd
      by_cases h : k₀ = k <;> simp [dictSet, dictGet, h, ih]

/-- Result of dispatching one Fi MCP tool inside `chat_with_ai`
(`api_server.py`): the tool result fed back to the LLM, the session
`financial_data` map afterwards, and whether the Remote Tool Gateway
(`execute_mcp_tool`) was actually called. -/
structure FiDispatchOutcome where
  tool_result : PyVal
  financial_data : List (String × PyVal)
  remote_called : Bool

/-- The Fi-tool branch of the tool loop in `chat_with_ai`
(`api_server.py`): a cached entry short-circuits to the cache; otherwise
`execute_mcp_tool` (the oracle `remote`) is called and the result is
cached when it carries no `error` key and is not login-required.  The
`and` is short-circuiting, so `is_login_required` (which can raise, see
C5) only runs when no `error` key is present. -/
def chatFiToolDispatch (remote : String → PyVal)
    (loads : String → Option PyVal)
    (financial_data : List (String × PyVal)) (tool_name : String) :
    Except String FiDispatchOutcome :=
  match dictGet financial_data tool_name with
  | some cached => .ok ⟨cached, financial_data, false⟩
  | Option.none =>
      let r := remote tool_name
      if pyHasKey r "error" then .ok ⟨r, financial_data, true⟩
      else
        match is_login_required loads r with
        | .error e => .error e
        | .ok true => .ok ⟨r, financial_data, true⟩
        | .ok false => .ok ⟨r, dictSet financial_data tool_name r, true⟩

/-- The context-update block at the end of `orchestrate_agent_workflow`
(`api_server_new.py`): every successful execution of one of the six
financial tools is mirrored into the session `financial_data` map
(`context.financial_context` receives the identical writes). -/
def mirrorFinancialData (execs : List ToolExecution)
    (fd : List (String × PyVal)) : List (String × PyVal) :=
  if execs.any (fun e =>
      FI_TOOL_NAMES_NEW.contains e.tool_name && e.is_successful) then
    execs.foldl (fun acc e =>
      if FI_TOOL_NAMES_NEW.contains e.tool_name && e.is_successful then
        dictSet acc e.tool_name (e.result.getD .none)
      else acc) fd
  else fd

/-- C3: financial-tool caching.  First conjunct: a session holding a
cached result for a financial tool serves that identical payload on two
consecutive dispatches, with no Remote Tool Gateway call and an unchanged
session in both.  Second conjunct: a fresh successful call (no `error`
key, not login-required) writes its result over the cache entry.  Third
conjunct: in `orchestrate_agent_workflow`, a successful fresh execution
of a financial tool is mirrored into the session `financial_data` map. -/
theorem C3_financial_cache (remote : String → PyVal)
    (loads : String → Option PyVal) (fd : List (String × PyVal))
    (name : String) (_hfi : name ∈ FI_TOOL_NAMES) :
    (∀ cached, dictGet fd name = some cached →
      ∃ o, chatFiToolDispatch remote loads fd name = .ok o ∧
        o.tool_result = cached ∧ o.remote_called = false ∧
        o.financial_data = fd ∧
        chatFiToolDispatch remote loads o.financial_data name = .ok o) ∧
    (dictGet fd name = Option.none →
      pyHasKey (remote name) "error" = false →
      is_login_required loads (remote name) = .ok false →
      ∃ o, chatFiToolDispatch remote loads fd name = .ok o ∧
        o.tool_result = remote name ∧ o.remote_called = true ∧
        dictGet o.financial_data name = some (remote name)) ∧
    (∀ e : ToolExecution, ∀ r, e.tool_name = name →
      e.is_successful = true → e.result = some r →
      name ∈ FI_TOOL_NAMES_NEW →
      dictGet (mirrorFinancialData [e] fd) name = some r) := by
  refine ⟨?_, ?_, ?_⟩
  · intro cached hcached
    refine ⟨⟨cached, fd, false⟩, ?_, rfl, rfl, rfl, ?_⟩ <;>
      simp [chatFiToolDispatch, hcached]
  · intro hnone herr hlog
    refine ⟨⟨remote name, dictSet fd name (remote name), true⟩, ?_, rfl, rfl, ?_⟩
    · simp [chatFiToolDispatch, hnone, herr, hlog]
    · exact dictGet_dictSet_self fd name (remote name)
  · intro e r hname hsucc hres hfin
    simp [mirrorFinancialData, hsucc, hres, hname, hfin,
      dictGet_dictSet_self]

/-- C3 witness: the theorem applied at a concrete session that caches a
`fetch_net_worth` payload; both consecutive dispatches return it with no
gateway call. -/
theorem C3_financial_cache_witness :
    ∃ o, chatFiToolDispatch (fun _ => .str "fresh") (fun _ => Option.none)
        [("fetch_net_worth", .str "cached payload")] "fetch_net_worth" =
        .ok o ∧
      o.tool_result = .str "cached payload" ∧ o.remote_called = false ∧
      o.financial_data = [("fetch_net_worth", .str "cached payload")] ∧
      chatFiToolDispatch (fun _ => .str "fresh") (fun _ => Option.none)
        o.financial_data "fetch_net_worth" = .ok o :=
  (C3_financial_cache (fun _ => .str "fresh") (fun _ => Option.none)
      [("fetch_net_worth", .str "cached payload")] "fetch_net_worth"
      (by decide)).1 (.str "cached payload") rfl

/-- The per-session chat state that C6 is about, from `api_server.py`:
the `financial_data` map, the cached rendered context string
(`user_context`), the stored conversation handle (`chat_instance`, an
opaque handle id), the system context the stored chat currently holds
(`chat_context`, meaningful when `chat_instance` is present), and the
`last_context_update` / `last_updated` timestamps. -/
structure ChatSession where
  financial_data : List (String × PyVal)
  user_context : String
  chat_instance : Option Nat
  chat_context : String
  last_context_update : ℤ
  last_updated : ℤ

/-- `invalidate_chat_session` (`api_server.py`): drops the stored chat
handle and zeroes `last_context_update`, so the next turn rebuilds the
system prompt from scratch. -/
def invalidate_chat_session (s : ChatSession) : ChatSession :=
  match s.chat_instance with
  | some _ => { s with chat_instance := Option.none, last_context_update := 0 }
  | Option.none => s

/-- The end-of-turn context refresh in `chat_with_ai` (`api_server.py`):
when any of the four financial tools was used this turn, the rendered
user context is recomputed from the (already updated) `financial_data`,
`last_updated` is stamped, and the stored chat handle is invalidated.
`render` is `create_user_financial_context`. -/
def finalizeTurnContext (render : List (String × PyVal) → String)
    (now : ℤ) (tools_used : List String) (s : ChatSession) : ChatSession :=
  if FI_TOOL_NAMES.any (fun t => tools_used.contains t) then
    let s₁ := { s with user_context := render s.financial_data,
                       last_updated := now }
    match s₁.chat_instance with
    | some _ => invalidate_chat_session s₁
    | Option.none => s₁
  else s

/-- The turn-start context acquisition in `chat_with_ai`
(`api_server.py`): with no stored handle, a fresh chat is created whose
system instruction embeds `render financial_data`; with a stored handle,
the existing chat is reused, receiving an explicit context-update message
when the 10-minute window elapsed or the data changed since the last
update.  Returns the financial context the LLM sees this turn. -/
def turnStartContext (render : List (String × PyVal) → String)
    (now : ℤ) (s : ChatSession) : String × ChatSession :=
  match s.chat_instance with
  | Option.none =>
      (render s.financial_data,
        { s with chat_instance := some 1,
                 chat_context := render s.financial_data })
  | some _ =>
      if now - s.last_context_update > 600 ∨
          s.last_updated > s.last_context_update then
        (render s.financial_data,
          { s with chat_context := render s.financial_data,
                   last_context_update := now })
      else (s.chat_context, s)

/-- C6: after a turn in which a financial tool was used (in particular
whenever one succeeded with new data), the stored conversation handle is
discarded, and the next turn rebuilds its system context from the current
`financial_data` — the pre-update cached context string is not reused
verbatim whenever the updated rendering differs from it. -/
theorem C6_context_staleness (render : List (String × PyVal) → String)
    (now later : ℤ) (tools_used : List String) (s : ChatSession)
    (t : String) (htool : t ∈ tools_used) (hfi : t ∈ FI_TOOL_NAMES) :
    (finalizeTurnContext render now tools_used s).chat_instance =
      Option.none ∧
    (turnStartContext render later
        (finalizeTurnContext render now tools_used s)).1 =
      render (finalizeTurnContext render now tools_used s).financial_data ∧
    (render (finalizeTurnContext render now tools_used s).financial_data ≠
        s.user_context →
      (turnStartContext render later
          (finalizeTurnContext render now tools_used s)).1 ≠
        s.user_context) := by
  have hex : ∃ x ∈ FI_TOOL_NAMES, x ∈ tools_used := ⟨t, hfi, htool⟩
  have hinst : (finalizeTurnContext render now tools_used s).chat_instance =
      Option.none := by
    rcases h : s.chat_instance with _ | c <;>
      simp [finalizeTurnContext, hex, invalidate_chat_session, h]
  refine ⟨hinst, ?_, ?_⟩
  · simp [turnStartContext, hinst]
  · intro hne
    simpa [turnStartContext, hinst] using hne

/-- C6 witness: the theorem applied at a concrete session whose turn used
`fetch_net_worth`; the handle is dropped and the next turn renders the
updated data. -/
theorem C6_context_staleness_witness :
    (finalizeTurnContext (fun fd => toString fd.length) 5
        ["fetch_net_worth"]
        ⟨[("fetch_net_worth", .str "x")], "stale", some 7, "ctx", 1, 2⟩
      ).chat_instance = Option.none :=
  (C6_context_staleness (fun fd => toString fd.length) 5 9
      ["fetch_net_worth"]
      ⟨[("fetch_net_worth", .str "x")], "stale", some 7, "ctx", 1, 2⟩
      "fetch_net_worth" (by decide) (by decide)).1

/-- Python list prefix test on characters, used for the `in` operator. -/
def listStartsWith : List Char → List Char → Bool
  | [], _ => true
  | _ :: _, [] => false
  | a :: as, b :: bs => (a == b) && listStartsWith as bs

/-- Python substring containment on characters. -/
def listContainsSub (needle : List Char) : List Char → Bool
  | [] => needle.isEmpty
  | c :: rest => listStartsWith needle (c :: rest) || listContainsSub needle rest

/-- The Python expression `needle in haystack` on strings. -/
def pyInStr (needle haystack : String) : Bool :=
  listContainsSub needle.toList haystack.toList

/-- An error-dict result, `\x7b"error": msg\x7d`. -/
def errDict (msg : String) : PyVal := .dict [("error", .str msg)]

/-- One HTTP response of the Fi MCP gateway to a `tools/call` request. -/
inductive McpResponse where
  | status401
  | status400 (body : String)
  | httpError (code : Nat)
  | okResult (r : PyVal)
  | okError (e : PyVal)
  | okNeither

/-- `execute_mcp_tool` from `api_server_new.py`, over a finite trace of
gateway responses, one consumed per `tools/call` attempt; `initOk k` is
the outcome of the k-th `initialize_mcp_session` re-initialization.  The
second component counts the `tools/call` attempts made.  An exhausted
trace models a connection failure (mapped to an error dict by the
source).  On HTTP 400 whose body contains the `Invalid session ID`
marker, the source re-initializes and recursively calls itself with no
retry guard (its comment reads `Retry once`, but nothing bounds the
recursion). -/
def execute_mcp_tool_new (tool : String) (initOk : Nat → Bool) :
    List McpResponse → Nat → PyVal × Nat
  | [], _ =>
      (errDict "Connection error - Fi MCP server may be unavailable", 0)
  | resp :: rest, reinits =>
      match resp with
      | .status401 =>
          (.dict [("status", .str "login_required"), ("tool", .str tool)], 1)
      | .status400 body =>
          if pyInStr "Invalid session ID" body then
            if initOk reinits then
              let out := execute_mcp_tool_new tool initOk rest (reinits + 1)
              (out.1, out.2 + 1)
            else (errDict "Session expired and failed to reinitialize", 1)
          else (errDict ("Bad request: " ++ body), 1)
      | .httpError code => (errDict ("HTTP error " ++ toString code), 1)
      | .okResult r => (r, 1)
      | .okError e => (.dict [("error", e)], 1)
      | .okNeither =>
          (errDict "No valid response received from Fi MCP server", 1)

/-- C4: the code diverges from the claim (and from its own `Retry once`
comment): against a gateway that answers HTTP 400 `Invalid session ID`
three times before succeeding, with re-initialization succeeding each
time, `execute_mcp_tool` makes four `tools/call` attempts and returns the
success — it keeps re-initializing and retrying on every such response
instead of retrying exactly once and then surfacing an `Error`. -/
theorem C4_retry_unbounded :
    execute_mcp_tool_new "fetch_net_worth" (fun _ => true)
      [.status400 "Invalid session ID", .status400 "Invalid session ID",
       .status400 "Invalid session ID", .okResult (.str "networth")] 0 =
      (.str "networth", 4) := by
  rfl

/-- `AUTH_CACHE_DURATION = 600` in `api_server_new.py`. -/
def AUTH_CACHE_DURATION : ℤ := 600

/-- The per-session authentication cache: the `authenticated` flag and
the `last_auth_check` timestamp. -/
structure AuthState where
  authenticated : Bool
  last_auth_check : ℤ

/-- `check_session_authentication` from `api_server.py`: a cached `True`
within the 300-second window is served without a remote call unless
forced; otherwise the lightweight remote check
(`execute_mcp_tool(session_id, "fetch_net_worth", skip_auth_retry=True)`,
the oracle `remote`) runs, and the actual outcome and timestamp are
recorded; any exception (such as the C5 `TypeError` inside
`is_login_required`) records `False`.  Returns the flag, the updated
state, and whether a remote call happened. -/
def check_session_authentication_old (remote : Unit → PyVal)
    (loads : String → Option PyVal) (now : ℤ) (s : AuthState)
    (force_check : Bool) : Bool × AuthState × Bool :=
  if force_check = false ∧ now - s.last_auth_check < 300 ∧
      s.authenticated = true then
    (s.authenticated, s, false)
  else
    let r := remote ()
    match is_login_required loads r with
    | .error _ => (false, ⟨false, now⟩, true)
    | .ok b =>
        let is_auth := !b && !(pyHasKey r "error")
        (is_auth, ⟨is_auth, now⟩, true)

/-- `check_session_authentication` from `api_server_new.py`: outside the
(ten times longer) cache window it performs no remote call at all —
`Always return True for now to bypass authentication issues` — and
unconditionally records `authenticated = True`. -/
def check_session_authentication_new (now : ℤ) (s : AuthState)
    (force_check : Bool) : Bool × AuthState × Bool :=
  if force_check = false ∧ now - s.last_auth_check < AUTH_CACHE_DURATION * 10 ∧
      s.authenticated = true then
    (s.authenticated, s, false)
  else
    (true, ⟨true, now⟩, false)

/-- C9: evaluating both variants on an unauthenticated session whose
cache window has long elapsed and whose remote check would report
login-required: the `api_server.py` variant performs the remote call and
records the actual negative outcome, as the claim states, while the
`api_server_new.py` variant performs no remote call and unconditionally
records and returns `True` — the documented debugging bypass, not the
claimed re-check semantics. -/
theorem C9_auth_bypass :
    check_session_authentication_old
        (fun _ => .dict [("status", .str "login_required")])
        (fun _ => Option.none) 100000 ⟨false, 0⟩ false =
      (false, ⟨false, 100000⟩, true) ∧
    check_session_authentication_new 100000 ⟨false, 0⟩ false =
      (true, ⟨true, 100000⟩, false) := by
  constructor <;> rfl

/-- The newest-first NAV window used by `_get_nav_data`
(`financial_tools.py`): `nav_data[:period_days]` when the series is
longer than `period_days`, the whole series otherwise. -/
def navWindow (nav_data : List ℚ) (period_days : Nat) : List ℚ :=
  if period_days < nav_data.length then nav_data.take period_days
  else nav_data

/-- The period-return computation of the `get_nav` action
(`_get_nav_data`, `financial_tools.py`): over the truncated window,
`current_nav = nav_data[0]`, `old_nav = nav_data[-1]`, return
`(current - old) / old * 100`.  `none` models the per-code error branches
(empty series, and the `IndexError` of an empty window). -/
def getNavPeriodReturn (nav_data : List ℚ) (period_days : Nat) : Option ℚ :=
  match nav_data with
  | [] => Option.none
  | _ :: _ =>
      match (navWindow nav_data period_days).head?,
          (navWindow nav_data period_days).getLast? with
      | some current, some old => some ((current - old) / old * 100)
      | _, _ => Option.none

/-- The period-return computation of the `compare` action
(`_compare_mutual_funds`, `financial_tools.py`): guarded by
`nav_data and len(nav_data) > period_days`, with
`old_nav = nav_data[period_days]`. -/
def comparePeriodReturn (nav_data : List ℚ) (period_days : Nat) : Option ℚ :=
  if h : nav_data ≠ [] ∧ period_days < nav_data.length then
    some ((nav_data.get ⟨0, by
        cases nav_data with
        | nil => exact absurd rfl h.1
        | cons a l => exact Nat.succ_pos _⟩ -
      nav_data.get ⟨period_days, h.2⟩) /
        nav_data.get ⟨period_days, h.2⟩ * 100)
  else Option.none

theorem head?_take (l : List ℚ) (pd : Nat) (h0 : 0 < pd)
    (hl : 0 < l.length) :
    (l.take pd).head? = some (l.get ⟨0, hl⟩) := by
  cases l with
  | nil => simp at hl
  | cons a tl =>
      cases pd with
      | zero => omega
      | succ n => simp

theorem getLast?_take (l : List ℚ) (pd : Nat) (h0 : 0 < pd)
    (hle : pd ≤ l.length) :
    (l.take pd).getLast? = some (l.get ⟨pd - 1, by omega⟩) := by
  induction l generalizing pd with
  | nil => simp at hle; omega
  | cons a tl ih =>
      cases pd with
      | zero => omega
      | succ n =>
          cases n with
          | zero => simp
          | succ m =>
              have hlen : m + 1 ≤ tl.length := by
                simpa using hle
              cases tl with
              | nil => simp at hlen
              | cons b tl₂ =>
                  have hrec := ih (m + 1) (Nat.succ_pos m) hlen
                  calc ((a :: b :: tl₂).take (m + 2)).getLast?
                      = (a :: b :: tl₂.take m).getLast? := by
                        simp [List.take_succ_cons]
                    _ = (b :: tl₂.take m).getLast? :=
                        List.getLast?_cons_cons
                    _ = ((b :: tl₂).take (m + 1)).getLast? := by
                        simp [List.take_succ_cons]
                    _ = some ((a :: b :: tl₂).get ⟨m + 1 + 1 - 1, by
                          simp only [List.length_cons] at hle ⊢
                          omega⟩) := by
                        rw [hrec]
                        rfl

theorem nav_synthetic_zero : getNavPeriodReturn [100, 110] 1 = some 0 := by
  have hwin : navWindow [100, 110] 1 = [100] := rfl
  simp only [getNavPeriodReturn, hwin]
  norm_num

theorem compare_synthetic :
    comparePeriodReturn [100, 110] 1 = some (((100 : ℚ) - 110) / 110 * 100) := by
  have h : ([100, 110] : List ℚ) ≠ [] ∧ 1 < ([100, 110] : List ℚ).length :=
    ⟨by simp, by simp⟩
  rw [comparePeriodReturn, dif_pos h]
  rfl

/-- C8 counterexample: for the synthetic newest-first series `[100, 110]`
with `period_days = 1`, the claim demands
`((100 - 110) / 110) * 100`, about -9.09 percent, but `_get_nav_data`
truncates to `nav_data[:1] = [100]` and reports a period return of 0. -/
theorem C8_counterexample :
    getNavPeriodReturn [100, 110] 1 = some 0 ∧
    ((100 : ℚ) - 110) / 110 * 100 ≠ 0 := by
  constructor
  · exact nav_synthetic_zero
  · norm_num

/-- C8 (amended): the `get_nav` period return uses the last entry of the
first `period_days` entries, i.e. the NAV `period_days - 1` entries back
(not `period_days` back): for `0 < period_days < len`, the return is
`(nav[0] - nav[period_days - 1]) / nav[period_days - 1] * 100`, which is
0 for `[100, 110]` with `period_days = 1`.  The formula the claim states
— old NAV at index `period_days` — is the one the `compare` action
computes, and it does yield `(100 - 110) / 110 * 100` on that series. -/
theorem C8_period_return (nav_data : List ℚ) (period_days : Nat)
    (h0 : 0 < period_days) (hlt : period_days < nav_data.length) :
    getNavPeriodReturn nav_data period_days =
      some ((nav_data.get ⟨0, by omega⟩ -
          nav_data.get ⟨period_days - 1, by omega⟩) /
        nav_data.get ⟨period_days - 1, by omega⟩ * 100) ∧
    comparePeriodReturn nav_data period_days =
      some ((nav_data.get ⟨0, by omega⟩ -
          nav_data.get ⟨period_days, hlt⟩) /
        nav_data.get ⟨period_days, hlt⟩ * 100) ∧
    getNavPeriodReturn [100, 110] 1 = some 0 ∧
    comparePeriodReturn [100, 110] 1 =
      some (((100 : ℚ) - 110) / 110 * 100) := by
  refine ⟨?_, ?_, nav_synthetic_zero, compare_synthetic⟩
  · have hwin : navWindow nav_data period_days = nav_data.take period_days :=
      if_pos hlt
    have hh := head?_take nav_data period_days h0 (by omega)
    have hl := getLast?_take nav_data period_days h0 (by omega)
    cases nav_data with
    | nil => simp at hlt
    | cons a tl =>
        simp only [getNavPeriodReturn, hwin] at *
        rw [hh, hl]
  · have hne : nav_data ≠ [] := by
      cases nav_data with
      | nil => simp at hlt
      | cons a l => simp
    rw [comparePeriodReturn, dif_pos ⟨hne, hlt⟩]

/-- C8 witness: the amended theorem applied to the synthetic series. -/
theorem C8_period_return_witness :
    getNavPeriodReturn [100, 110] 1 = some 0 :=
  (C8_period_return [100, 110] 1 (by decide) (by decide)).2.2.1

/-- The content envelope
`\x7b"content": [\x7b"type": "text", "text": t\x7d]\x7d` that
`financial_tools.py` wraps every analysis text in. -/
def contentEnvelope (t : String) : PyVal :=
  .dict [("content", .list [.dict [("type", .str "text"), ("text", .str t)]])]

/-- `execute_stock_analysis` (`financial_tools.py`): empty-symbols guard,
symbol cleaning (`strip` + `upper`, dropping blank entries), dispatch on
`analysis_type` with a silent `else` fallback to the basic analysis, and
the content envelope.  The five per-type analysers fetch from yfinance
and are oracle parameters. -/
def execute_stock_analysis
    (basicInfo detailedInfo : List String → String)
    (historicalInfo compareInfo portfolioInfo : List String → String → String)
    (symbols : List String) (analysis_type period : String) : PyVal :=
  if symbols = [] then errDict "No stock symbols provided"
  else
    let clean_symbols := (symbols.filter (fun s => s.trim ≠ "")).map
        (fun s => s.trim.toUpper)
    contentEnvelope
      (if analysis_type = "basic" then basicInfo clean_symbols
       else if analysis_type = "detailed" then detailedInfo clean_symbols
       else if analysis_type = "historical" then
         historicalInfo clean_symbols period
       else if analysis_type = "comparison" then
         compareInfo clean_symbols period
       else if analysis_type = "portfolio" then
         portfolioInfo clean_symbols period
       else basicInfo clean_symbols)

theorem contentEnvelope_ne_errDict (t msg : String) :
    contentEnvelope t ≠ errDict msg := by
  intro h
  rw [contentEnvelope, errDict] at h
  injection h with hl
  injection hl with hhd htl
  injection hhd with hk hv
  exact absurd hk (by decide)

/-- C10: `execute_stock_analysis` is total over `analysis_type`: with a
non-empty symbols list, any type outside the five known ones produces the
same content envelope as `analysis_type = "basic"` (silent fallback), and
the empty-symbols guard is the only pre-fetch input producing the
error-dict shape. -/
theorem C10_analysis_type_total
    (basicInfo detailedInfo : List String → String)
    (historicalInfo compareInfo portfolioInfo : List String → String → String)
    (symbols : List String) (analysis_type period : String)
    (hsym : symbols ≠ [])
    (htype : analysis_type ∉
      ["basic", "detailed", "historical", "comparison", "portfolio"]) :
    execute_stock_analysis basicInfo detailedInfo historicalInfo compareInfo
        portfolioInfo symbols analysis_type period =
      execute_stock_analysis basicInfo detailedInfo historicalInfo compareInfo
        portfolioInfo symbols "basic" period ∧
    (∃ t, execute_stock_analysis basicInfo detailedInfo historicalInfo
        compareInfo portfolioInfo symbols analysis_type period =
      contentEnvelope t) ∧
    (∀ t p, execute_stock_analysis basicInfo detailedInfo historicalInfo
        compareInfo portfolioInfo [] t p =
      errDict "No stock symbols provided") ∧
    (∀ syms t p, execute_stock_analysis basicInfo detailedInfo historicalInfo
        compareInfo portfolioInfo syms t p =
        errDict "No stock symbols provided" ↔ syms = []) := by
  have h1 : analysis_type ≠ "basic" := fun h => htype (by rw [h]; decide)
  have h2 : analysis_type ≠ "detailed" := fun h => htype (by rw [h]; decide)
  have h3 : analysis_type ≠ "historical" := fun h => htype (by rw [h]; decide)
  have h4 : analysis_type ≠ "comparison" := fun h => htype (by rw [h]; decide)
  have h5 : analysis_type ≠ "portfolio" := fun h => htype (by rw [h]; decide)
  refine ⟨?_, ?_, ?_, ?_⟩
  · simp [execute_stock_analysis, hsym, h1, h2, h3, h4, h5]
  · exact ⟨basicInfo ((symbols.filter (fun s => s.trim ≠ "")).map
        (fun s => s.trim.toUpper)), by
      simp [execute_stock_analysis, hsym, h1, h2, h3, h4, h5]⟩
  · intro t p
    simp [execute_stock_analysis]
  · intro syms t p
    constructor
    · intro h
      by_contra hne
      simp only [execute_stock_analysis, if_neg hne] at h
      exact contentEnvelope_ne_errDict _ _ h
    · intro h
      subst h
      simp [execute_stock_analysis]

/-- C10 witness: the theorem applied to a concrete unknown analysis type;
the fallback equals the basic envelope. -/
theorem C10_analysis_type_total_witness :
    execute_stock_analysis (fun s => toString s.length) (fun _ => "d")
        (fun _ _ => "h") (fun _ _ => "c") (fun _ _ => "p")
        ["aapl"] "fundamental" "1y" =
      execute_stock_analysis (fun s => toString s.length) (fun _ => "d")
        (fun _ _ => "h") (fun _ _ => "c") (fun _ _ => "p")
        ["aapl"] "basic" "1y" :=
  (C10_analysis_type_total (fun s => toString s.length) (fun _ => "d")
      (fun _ _ => "h") (fun _ _ => "c") (fun _ _ => "p")
      ["aapl"] "fundamental" "1y" (by decide) (by decide)).1

/-- Python `str.lower()`, character by character (structural, so that
concrete evaluations reduce in the kernel). -/
def pyLower (s : String) : String :=
  ⟨s.data.map Char.toLower⟩

/-- Python `str.strip()`: drop leading and trailing whitespace. -/
def pyStrip (s : String) : String :=
  ⟨((s.data.dropWhile Char.isWhitespace).reverse.dropWhile
      Char.isWhitespace).reverse⟩

/-- Python `any(word in q for word in words)`. -/
def pyAnyKeyword (q : String) (words : List String) : Bool :=
  words.any (fun w => pyInStr w q)

/-- `_is_financial_query` (`web_search.py`). -/
def is_financial_query (query : String) : Bool :=
  pyAnyKeyword (pyLower query)
    ["stock", "share", "ticker", "mutual fund", "mf", "nav", "nifty",
     "sensex", "trading"]

/-- One parsed search result entry (a Google `items` / SerpAPI
`organic_results` element); absent fields fall back to defaults via
`.get`. -/
structure SearchItem where
  title : Option String
  snippet : Option String
  link : Option String

/-- The fields of a Google Custom Search response the formatter reads. -/
structure GoogleData where
  items : List SearchItem
  formattedSearchTime : Option String
  formattedTotalResults : Option String

/-- The fields of a SerpAPI response the formatter reads. -/
structure SerpData where
  organic_results : List SearchItem

/-- Outcome of one HTTP search-provider call: parsed data, a
`requests.RequestException`, or any other exception. -/
inductive ProviderOutcome (α : Type) where
  | ok (data : α)
  | requestError (msg : String)
  | otherError (msg : String)

/-- The snippet cleanup of both formatters: newline removal, strip, and
truncation to 200 characters. -/
def cleanSnippet (s : String) : String :=
  let t : String := pyStrip ⟨s.data.map (fun ch => if ch = '\n' then ' ' else ch)⟩
  if t.length > 200 then (⟨t.data.take 200⟩ : String) ++ "..." else t

/-- The result-text construction of `_try_google_search` for a response
with items (top 4 shown, enumerated from 1). -/
def formatGoogleResults (query : String) (data : GoogleData) : String :=
  "🔍 Current Web Search Results for: '" ++ query ++ "'\n" ++
  "📅 Search performed on: " ++ data.formattedSearchTime.getD "N/A" ++
  " seconds\n\n" ++
  String.join ((List.enumFrom 1 (data.items.take 4)).map (fun p =>
    toString p.1 ++ ". **" ++ p.2.title.getD "No title" ++ "**\n" ++
    "   " ++ cleanSnippet (p.2.snippet.getD "No description available") ++
    "\n" ++ "   🔗 Source: " ++ p.2.link.getD "#" ++ "\n\n")) ++
  "📊 Total results found: " ++ data.formattedTotalResults.getD "Unknown" ++
  "\n" ++ "⚡ This is real-time web search data from Google\n" ++
  "💡 For most current information, click on the source links above"

/-- `_provide_demo_search_result` (`web_search.py`): keyword-routed
canned demo content returned by the Google strategy when the API keys are
not configured.  The long literal bodies are abbreviated to their
headers; only their selection and non-emptiness matter to the claims. -/
def provide_demo_search_result (query : String) : String :=
  let q := pyLower query
  if pyAnyKeyword q ["fd", "fixed deposit", "deposit rate"] then
    "🔍 **Current Fixed Deposit Interest Rates in India (Demo)**\n\n**Top Banks FD Rates:**\n• SBI: 6.8% - 7.0% (1-2 years)\n💡 **Note**: This is demo data."
  else if pyAnyKeyword q ["interest rate", "repo rate", "policy rate"] then
    "🔍 **Current Interest Rates in India (Demo)**\n\n**RBI Policy Rates:**\n• Repo Rate: 6.5%\n💡 **Note**: This is demo data showing web search capability."
  else if pyAnyKeyword q ["gold", "gold price", "gold etf"] then
    "🔍 **Current Gold Prices in India (Demo)**\n\n**Today's Gold Rates:**\n• 24K Gold: ₹6,845 per gram\n💡 **Note**: This is demo data."
  else if pyAnyKeyword q ["stock", "market", "nifty", "sensex"] then
    "🔍 **Indian Stock Market Update (Demo)**\n\n**Market Indices:**\n• Nifty 50: 24,650\n💡 **Note**: Demo market data showing web search integration."
  else
    "🔍 **Web Search Demo for: '" ++ query ++
      "'**\n\n📊 **Search Results:**\n💡 **Note**: Configure GOOGLE_SEARCH_API_KEY and GOOGLE_CSE_ID for live web search."

/-- `_try_google_search` (`web_search.py`): with unset credentials it
returns the canned demo content (it does not fall through); with
credentials, a response with items is formatted, an item-less response
yields the empty string, a `RequestException` yields a non-empty warning
and any other exception a second non-empty warning (so provider errors do
not fall through either). -/
def try_google_search (googleApiKey googleCseId : Option String)
    (google : String → ProviderOutcome GoogleData) (query : String) :
    String :=
  match googleApiKey, googleCseId with
  | some _, some _ =>
      match google query with
      | .ok data =>
          if data.items.length > 0 then formatGoogleResults query data
          else ""
      | .requestError e =>
          "⚠️ Google Search API temporarily unavailable: " ++ e ++
            "\nTrying alternative search methods..."
      | .otherError e =>
          "⚠️ Search temporarily unavailable: " ++ e ++
            "\nPlease try rephrasing your query."
  | _, _ => provide_demo_search_result query

/-- The result-text construction of `_try_serp_search` for a response
with organic results. -/
def formatSerpResults (query : String) (data : SerpData) : String :=
  "🔍 Web Search Results for: '" ++ query ++ "'\n" ++
  "🌐 Powered by SerpAPI\n\n" ++
  String.join ((List.enumFrom 1 (data.organic_results.take 4)).map (fun p =>
    toString p.1 ++ ". **" ++ p.2.title.getD "No title" ++ "**\n" ++
    "   " ++ cleanSnippet (p.2.snippet.getD "No description available") ++
    "\n" ++ "   🔗 " ++ p.2.link.getD "#" ++ "\n\n")) ++
  "⚡ Real-time search results\n📍 Results localized for India"

/-- `_try_serp_search` (`web_search.py`): the empty string when the API
key is unset or the response carries no organic results; non-empty
warnings on provider exceptions. -/
def try_serp_search (serpApiKey : Option String)
    (serp : String → ProviderOutcome SerpData) (query : String) : String :=
  match serpApiKey with
  | Option.none => ""
  | some _ =>
      match serp query with
      | .ok data =>
          if data.organic_results.length > 0 then formatSerpResults query data
          else ""
      | .requestError e => "⚠️ SerpAPI temporarily unavailable: " ++ e
      | .otherError e => "⚠️ Search error: " ++ e

/-- `_create_comprehensive_search_response` (`web_search.py`): the static
heuristic responder, always non-empty; guidance bodies abbreviated to
their headers, keyword routing kept exact. -/
def create_comprehensive_search_response (query : String) : String :=
  let q := pyLower query
  "Search Results for: " ++ query ++ "\n\n" ++
  (if pyAnyKeyword q ["interest rate", "loan rate", "home loan",
      "personal loan", "fd rate", "fixed deposit"] then
    "🏦 For Current Interest Rates:\n• Bank websites: SBI, HDFC, ICICI, Axis Bank for latest rates\n\n"
  else if pyAnyKeyword q ["rbi", "policy", "repo rate", "monetary policy",
      "inflation"] then
    "🏛️ For RBI Policy & Economic Data:\n• RBI Official Website: rbi.org.in\n\n"
  else if pyAnyKeyword q ["stock", "share", "market", "nifty", "sensex"] then
    "📈 For Stock Market Information:\n• NSE India (nseindia.com) for real-time data\n\n"
  else if pyAnyKeyword q ["mutual fund", "mf", "fund", "nav"] then
    "📊 For Mutual Fund Information:\n• AMFI (amfiindia.com) for official NAV data\n\n"
  else if pyAnyKeyword q ["tax", "income tax", "gst", "tds"] then
    "💰 For Tax Information:\n• Income Tax Department (incometax.gov.in)\n\n"
  else if pyAnyKeyword q ["insurance", "health insurance", "life insurance",
      "term insurance"] then
    "🛡️ For Insurance Information:\n• IRDAI (irdai.gov.in) for regulations\n\n"
  else if pyAnyKeyword q ["news", "latest", "current", "today", "update"] then
    "📰 For Latest Financial News:\n• Economic Times (economictimes.indiatimes.com)\n\n"
  else
    "🔍 For General Information:\n• Use specific financial terms for better guidance\n\n") ++
  "Search Query: " ++ query ++ "\n\n" ++
  "⚡ Note: For real-time results, your Google Custom Search API is configured.\n💡 Pro Tip: Be specific in your queries for better results."

/-- `execute_web_search` (`web_search.py`): empty-query guard, then the
ordered strategies — Google, SerpAPI, the optional enhanced financial
search (`enhancedAvailable` is `ENHANCED_SEARCH_AVAILABLE`, `False` in
this tree because the `financial_search` import falls back to the
placeholder), then the static heuristic responder — first non-empty
string wins and is wrapped in a content envelope. -/
def execute_web_search (googleApiKey googleCseId serpApiKey : Option String)
    (google : String → ProviderOutcome GoogleData)
    (serp : String → ProviderOutcome SerpData)
    (enhancedAvailable : Bool) (enhanced : String → Except String String)
    (query : String) : PyVal :=
  if query = "" then errDict "No search query provided"
  else
    let google_result := try_google_search googleApiKey googleCseId google query
    if google_result ≠ "" then contentEnvelope google_result
    else
      let serp_result := try_serp_search serpApiKey serp query
      if serp_result ≠ "" then contentEnvelope serp_result
      else
        match (if enhancedAvailable && is_financial_query query then
            match enhanced query with
            | .ok t => if t.trim.length > 50 then some t else Option.none
            | .error _ => Option.none
          else Option.none) with
        | some t => contentEnvelope t
        | Option.none =>
            contentEnvelope (create_comprehensive_search_response query)

theorem append_ne_empty_left (a b : String) (ha : a ≠ "") : a ++ b ≠ "" := by
  intro h
  apply ha
  have hlen : a.length + b.length = 0 := by
    rw [← String.length_append, h]
    rfl
  have h0 : a.length = 0 := by omega
  cases a with
  | mk da =>
      cases da with
      | nil => rfl
      | cons c cs => simp [String.length, List.length] at h0

theorem provide_demo_ne_empty (q : String) :
    provide_demo_search_result q ≠ "" := by
  unfold provide_demo_search_result
  dsimp only
  split_ifs
  · decide
  · decide
  · decide
  · decide
  · apply append_ne_empty_left
    apply append_ne_empty_left
    decide

theorem static_responder_ne_empty (q : String) :
    create_comprehensive_search_response q ≠ "" := by
  unfold create_comprehensive_search_response
  dsimp only
  repeat' apply append_ne_empty_left
  decide

/-- The SerpAPI oracle of the C7 counterexample: its provider would
return one organic result. -/
def serpOracleForC7 : String → ProviderOutcome SerpData :=
  fun _ => .ok ⟨[⟨some "Gold rates today", some "Latest gold price data",
    some "https://example.org/gold"⟩]⟩

/-- C7 counterexample: with the Google credentials absent and a SerpAPI
key configured whose provider would return a non-empty result, the Google
strategy is not skipped — `execute_web_search` returns the built-in
Google demo content instead of the SerpAPI strategy output; and with
credentials present, a Google provider error also wins the chain as a
warning message instead of degrading to the next strategy. -/
theorem C7_counterexample :
    execute_web_search Option.none Option.none (some "serp-key")
        (fun _ => .requestError "unused") serpOracleForC7 false
        (fun _ => .error "unavailable") "gold" =
      contentEnvelope (provide_demo_search_result "gold") ∧
    try_serp_search (some "serp-key") serpOracleForC7 "gold" ≠ "" ∧
    provide_demo_search_result "gold" ≠
      try_serp_search (some "serp-key") serpOracleForC7 "gold" ∧
    execute_web_search (some "gkey") (some "cseid") (some "serp-key")
        (fun _ => .requestError "boom") serpOracleForC7 false
        (fun _ => .error "unavailable") "gold" =
      contentEnvelope ("⚠️ Google Search API temporarily unavailable: " ++
        "boom" ++ "\nTrying alternative search methods...") := by
  refine ⟨rfl, by decide, by decide, rfl⟩

/-- C7 (amended): `execute_web_search` never raises and always returns an
envelope: an error dict for the empty query, otherwise a content envelope
holding the first non-empty string of the ordered strategies — Google
(which, when its credentials are absent, returns built-in demo content
rather than being skipped, and turns provider errors into non-empty
warning messages rather than degrading), then SerpAPI (genuinely skipped
when its key is absent or the response has no results), then the static
heuristic responder, which always produces non-empty output and
terminates the chain. -/
theorem C7_search_chain (googleApiKey googleCseId serpApiKey : Option String)
    (google : String → ProviderOutcome GoogleData)
    (serp : String → ProviderOutcome SerpData)
    (enhanced : String → Except String String) (query : String)
    (hq : query ≠ "") :
    execute_web_search googleApiKey googleCseId serpApiKey google serp false
        enhanced query =
      contentEnvelope
        (if try_google_search googleApiKey googleCseId google query ≠ ""
         then try_google_search googleApiKey googleCseId google query
         else if try_serp_search serpApiKey serp query ≠ ""
         then try_serp_search serpApiKey serp query
         else create_comprehensive_search_response query) ∧
    (∃ t, execute_web_search googleApiKey googleCseId serpApiKey google serp
        false enhanced query = contentEnvelope t ∧ t ≠ "") ∧
    (∀ g c q, g = Option.none ∨ c = Option.none →
      try_google_search g c google q = provide_demo_search_result q) ∧
    (∀ q, provide_demo_search_result q ≠ "") ∧
    (∀ q, create_comprehensive_search_response q ≠ "") ∧
    (∀ q, try_serp_search Option.none serp q = "") ∧
    execute_web_search googleApiKey googleCseId serpApiKey google serp false
        enhanced "" = errDict "No search query provided" := by
  have hchain : execute_web_search googleApiKey googleCseId serpApiKey google
      serp false enhanced query =
      contentEnvelope
        (if try_google_search googleApiKey googleCseId google query ≠ ""
         then try_google_search googleApiKey googleCseId google query
         else if try_serp_search serpApiKey serp query ≠ ""
         then try_serp_search serpApiKey serp query
         else create_comprehensive_search_response query) := by
    rw [execute_web_search, if_neg hq]
    by_cases hg : try_google_search googleApiKey googleCseId google query = ""
    · by_cases hs : try_serp_search serpApiKey serp query = "" <;>
        simp [hg, hs]
    · simp [hg]
  refine ⟨hchain, ⟨_, hchain, ?_⟩, ?_, provide_demo_ne_empty,
    static_responder_ne_empty, ?_, by rw [execute_web_search, if_pos rfl]⟩
  · by_cases hg : try_google_search googleApiKey googleCseId google query = ""
    · by_cases hs : try_serp_search serpApiKey serp query = ""
      · simpa [hg, hs] using static_responder_ne_empty query
      · simp [hg, hs]
    · simp [hg]
  · intro g c q hnone
    rcases hnone with h | h <;> subst h
    · rfl
    · cases g with
      | none => rfl
      | some k => rfl
  · intro q
    rfl

/-- C7 witness: the amended theorem applied with no credentials at all;
the chain bottoms out in a non-empty envelope. -/
theorem C7_search_chain_witness :
    ∃ t, execute_web_search Option.none Option.none Option.none
        (fun _ => ProviderOutcome.requestError "unused")
        (fun _ => ProviderOutcome.requestError "unused") false
        (fun _ => .error "unavailable") "hello" = contentEnvelope t ∧
      t ≠ "" :=
  (C7_search_chain Option.none Option.none Option.none
      (fun _ => ProviderOutcome.requestError "unused")
      (fun _ => ProviderOutcome.requestError "unused")
      (fun _ => .error "unavailable") "hello" (by decide)).2.1

end MoneyLens
